import Mathlib

/-!
# easy_socks5: the SOCKS5 handshake of socks5.go and index.go

A shallow embedding of the Go package `easy_socks5`.

Conventions of the embedding

* A byte is a natural number below 256; conversions `byte(x)` are written `x % 256`.
* A Go string is the list of its bytes.
* A connection (`net.Conn`) is modelled by the bytes its peer sends, after which the
  stream is at its end, by the sizes of the pieces in which its successive reads deliver
  them, and by a script saying which of the coming `Write` calls fail.
* The `bufio.Reader` holds what one read of the connection delivered: `ReadByte` refills
  an empty buffer, `Read` copies from the buffer, after at most one read of the
  connection, and so can return fewer bytes than asked for. The buffer has room for 4096
  bytes and a handshake reads at most 519, all from the start of the stream, so the size
  of the buffer never cuts a read of the handshake short and is not modelled.
* `Socks5.log` is a ghost field: the observable actions of the session, in order.
-/

namespace EasySocks5

/-! ## Constants (socks5.go, lines 99-141) -/

def Version : Nat := 0x05

def CMD_CONNECT : Nat := 0x01
def CMD_BIND : Nat := 0x02
def CMD_UDP : Nat := 0x03

def REP_0 : Nat := 0x00
def REP_1 : Nat := 0x01
def REP_2 : Nat := 0x02
def REP_3 : Nat := 0x03
def REP_4 : Nat := 0x04
def REP_5 : Nat := 0x05
def REP_6 : Nat := 0x06
def REP_7 : Nat := 0x07
def REP_8 : Nat := 0x08

def RSV : Nat := 0x00

def ATYP_IPV4 : Nat := 0x01
def ATYP_DOMAINNAME : Nat := 0x03
def ATYP_IPV6 : Nat := 0x04

/-! ## The transport: net.Conn and bufio.Reader -/

/-- Observable actions of a session. -/
inductive Event where
  /-- The call `server.SelectMethod(methods)`. -/
  | selectMethod (methods : List Nat)
  /-- A call `conn.Write(payload)` that returned `(n, err)`; `err` is true for a non-nil error. -/
  | write (payload : List Nat) (n : Nat) (err : Bool)
  /-- The call `net.Dial("tcp", address)` and whether it succeeded. -/
  | dial (address : List Nat) (ok : Bool)
  /-- The statement `go socks5.Exchange(rc)`. -/
  | exchange
  /-- The deferred `rc.Close()`. -/
  | closeTarget
  /-- The deferred `c.Close()`. -/
  | closeClient
  /-- The call `client.Connected(socks5.conn)`. -/
  | connected
  deriving DecidableEq

/-- A `net.Conn`: `incoming` are the bytes the peer sends (then the stream ends); `reads`
are the numbers of bytes the successive reads of the connection deliver (once the list is
used up, a read delivers all that is left); `faults` scripts the coming `Write` calls
(`none`: written in full, `some k`: only the first `k` bytes are accepted and an error is
returned; an exhausted script means success); `wire` are the bytes accepted so far. -/
structure NetConn where
  incoming : List Nat
  reads : List Nat := []
  faults : List (Option Nat)
  wire : List Nat
  deriving DecidableEq

/-- The method `Write` of `net.Conn`: returns `(n, err, conn)`. -/
def NetConn.Write (c : NetConn) (p : List Nat) : Nat × Bool × NetConn :=
  match c.faults with
  | [] => (p.length, false, { c with wire := c.wire ++ p })
  | none :: fs => (p.length, false, { c with faults := fs, wire := c.wire ++ p })
  | some k :: fs => (min k p.length, true, { c with faults := fs, wire := c.wire ++ p.take k })

/-- A `bufio.Reader` over a connection: `pending` are the bytes not yet handed to the
program, in order, of which the first `buffered` are in the buffer; `reads` are the
numbers of bytes the coming reads of the connection deliver. -/
structure Reader where
  pending : List Nat
  buffered : Nat := 0
  reads : List Nat := []
  deriving DecidableEq

/-- What the next read of the connection that delivers something delivers (the loop of
`fill`, which reads again after an empty read): the number of bytes, and the reads left.
`len` is the number of bytes the peer has yet to send. -/
def nextRead (reads : List Nat) (len : Nat) : Nat × List Nat :=
  match reads with
  | [] => (len, [])
  | k :: ks => if k = 0 then nextRead ks len else (min k len, ks)

/-- The loop `for b.r == b.w { b.fill() }` of `ReadByte`: an empty buffer is refilled by
the next read of the connection that delivers something. -/
def Reader.fill (r : Reader) : Reader :=
  if r.buffered = 0 then
    { r with buffered := (nextRead r.reads r.pending.length).1,
             reads := (nextRead r.reads r.pending.length).2 }
  else r

/-- The single read of the connection that `Read` makes when the buffer is empty; it may
deliver fewer bytes than are asked for. -/
def Reader.readOnce (r : Reader) : Reader :=
  if r.buffered = 0 then
    { r with buffered := (match r.reads with
                          | [] => r.pending.length
                          | k :: _ => min k r.pending.length),
             reads := r.reads.tail }
  else r

/-- The method `ReadByte` of `bufio.Reader`: the byte (0 on error), the error flag, and
the reader afterwards. An empty buffer is refilled first; at the end of the stream an
error is returned. -/
def Reader.ReadByte (r : Reader) : Nat × Bool × Reader :=
  match r.pending with
  | [] => (0, true, r)
  | b :: rest =>
    (b, false, { pending := rest, buffered := r.fill.buffered - 1, reads := r.fill.reads })

/-- The method `Read` of `bufio.Reader` into a fresh buffer `make([]byte, n)`: the buffer
afterwards (zero where nothing was copied), the error flag, and the reader afterwards.
A read into a buffer of length 0 returns at once. With an empty buffer the connection is
read once; at the end of the stream nothing is copied and an error is returned. What is
copied is what the buffer then holds, at most `n` bytes. The count of bytes copied is
not part of the result: no caller in the package looks at it. -/
def Reader.Read (r : Reader) (n : Nat) : List Nat × Bool × Reader :=
  if n = 0 then ([], false, r)
  else
    match r.pending with
    | [] => (List.replicate n 0, true, r)
    | _ :: _ =>
      (r.pending.take (min n r.readOnce.buffered)
          ++ List.replicate (n - min (min n r.readOnce.buffered) r.pending.length) 0,
        false,
        { pending := r.pending.drop (min n r.readOnce.buffered),
          buffered := r.readOnce.buffered - min n r.readOnce.buffered,
          reads := r.readOnce.reads })

/-! ## The session (socks5.go) -/

/-- The struct `Socks5`; `bfr` is the buffered reader over `conn`, `log` is the ghost
trace. -/
structure Socks5 where
  conn : NetConn
  bfr : Reader
  atyp : Nat
  addr : List Nat
  port : List Nat
  log : List Event
  deriving DecidableEq

def NewSocks5 (conn : NetConn) : Socks5 :=
  { conn := conn, bfr := { pending := conn.incoming, buffered := 0, reads := conn.reads },
    atyp := 0, addr := [], port := [], log := [] }

/-- The call `socks.conn.Write(p)`, recorded in the log. -/
def Socks5.connWrite (socks : Socks5) (p : List Nat) : Nat × Bool × Socks5 :=
  let (n, e, c) := socks.conn.Write p
  (n, e, { socks with conn := c, log := socks.log ++ [Event.write p n e] })

/-- Appends an action to the log. -/
def Socks5.emit (socks : Socks5) (ev : Event) : Socks5 :=
  { socks with log := socks.log ++ [ev] }

def Socks5.Valid (socks : Socks5) : Bool × Socks5 :=
  let (firstByte, e, r) := socks.bfr.ReadByte
  let socks := { socks with bfr := r }
  if e = false ∧ firstByte = Version then (true, socks) else (false, socks)

/-- The function `binary.BigEndian.Uint16`. -/
def Uint16 (b : List Nat) : Nat :=
  (b.getD 0 0 % 256) * 256 + b.getD 1 0 % 256

/-- The format `fmt.Sprintf("%s:%d", addr, port)`, as bytes. -/
def Sprintf (addr : List Nat) (port : Nat) : List Nat :=
  addr ++ [58] ++ (Nat.toDigits 10 port).map Char.toNat

/-- The method `GetAddr`: `none` stands for a non-nil error. -/
def Socks5.GetAddr (socks : Socks5) : Option (List Nat) × Socks5 :=
  let (firstByte, e, r) := socks.bfr.ReadByte
  let socks := { socks with bfr := r }
  if e then (none, socks)
  else
    let socks :=
      if firstByte = ATYP_IPV4 then
        let (addrBytes, _, r) := socks.bfr.Read 4
        { socks with bfr := r, addr := addrBytes }
      else if firstByte = ATYP_DOMAINNAME then
        let (lenght, _, r) := socks.bfr.ReadByte
        let (addrBytes, _, r) := r.Read lenght
        { socks with bfr := r, addr := addrBytes }
      else if firstByte = ATYP_IPV6 then
        let (addrBytes, _, r) := socks.bfr.Read 16
        { socks with bfr := r, addr := addrBytes }
      else socks
    let (portBytes, _, r) := socks.bfr.Read 2
    let socks := { socks with bfr := r, port := portBytes }
    (some (Sprintf socks.addr (Uint16 socks.port)), socks)

/-- The method `GetMethods`: `none` stands for a non-nil error. -/
def Socks5.GetMethods (socks : Socks5) : Option (List Nat) × Socks5 :=
  let (firstByte, e, r) := socks.bfr.ReadByte
  let socks := { socks with bfr := r }
  if e then (none, socks)
  else
    let (bs, e, r) := socks.bfr.Read firstByte
    let socks := { socks with bfr := r }
    if e then (none, socks) else (some bs, socks)

def Socks5.ReplyAsk (socks : Socks5) (method : Nat) : Socks5 :=
  (socks.connWrite [Version, method]).2.2

def Socks5.ValidConn (socks : Socks5) : Bool × Socks5 :=
  let (v, socks) := socks.Valid
  if v then
    let (firstByte, e, r) := socks.bfr.ReadByte
    let socks := { socks with bfr := r }
    if e = false ∧ firstByte = CMD_CONNECT then
      (true, { socks with bfr := (socks.bfr.ReadByte).2.2 })
    else (false, socks)
  else (false, socks)

/-- The method `ReplyConn`: the returned flag is true for a non-nil error. -/
def Socks5.ReplyConn (socks : Socks5) (rep : Nat) : Bool × Socks5 :=
  let repl := [Version, rep % 256, RSV, socks.atyp]
  let repl := if socks.atyp = ATYP_DOMAINNAME then repl ++ [socks.addr.length % 256] else repl
  let repl := repl ++ socks.addr
  let repl := repl ++ socks.port
  let (_, e, socks) := socks.connWrite repl
  (e, socks)

/-! ## The server (index.go, start) -/

/-- The function `start`: `SelectMethod` is the interceptor, `dial` says whether
`net.Dial("tcp", addr)` succeeds. The deferred calls close the target connection,
when there is one, and then the client connection. -/
def start (c : NetConn) (SelectMethod : List Nat → Nat) (dial : List Nat → Bool) : Socks5 :=
  let socks5 := NewSocks5 c
  let (v, socks5) := socks5.Valid
  if v = false then socks5.emit Event.closeClient
  else
    let (methods, socks5) := socks5.GetMethods
    match methods with
    | none => socks5.emit Event.closeClient
    | some methods =>
      let method := SelectMethod methods
      let socks5 := socks5.emit (Event.selectMethod methods)
      let socks5 := socks5.ReplyAsk method
      let (vc, socks5) := socks5.ValidConn
      if vc = false then socks5.emit Event.closeClient
      else
        let (addr, socks5) := socks5.GetAddr
        match addr with
        | none => socks5.emit Event.closeClient
        | some addr =>
          let ok := dial addr
          let socks5 := socks5.emit (Event.dial addr ok)
          if ok = false then
            let (_, socks5) := socks5.ReplyConn REP_4
            socks5.emit Event.closeClient
          else
            let (e, socks5) := socks5.ReplyConn REP_0
            if e then (socks5.emit Event.closeTarget).emit Event.closeClient
            else
              let socks5 := socks5.emit Event.exchange
              (socks5.emit Event.closeTarget).emit Event.closeClient

/-! ## The client (socks5.go and index.go, Dial) -/

def Socks5.SetAddr (socks : Socks5) (bytes : List Nat) : Socks5 :=
  { socks with addr := bytes }

def Socks5.SetPort (socks : Socks5) (bytes : List Nat) : Socks5 :=
  { socks with port := bytes }

def Socks5.SetATYP (socks : Socks5) (atyp : Nat) : Socks5 :=
  { socks with atyp := atyp % 256 }

def Socks5.validReplyAsk (socks : Socks5) : Bool × Socks5 :=
  let (b, e, r) := socks.bfr.ReadByte
  let socks := { socks with bfr := r }
  if e then (false, socks)
  else
    let socks := { socks with bfr := (socks.bfr.ReadByte).2.2 }
    (decide (b = Version), socks)

def Socks5.Ask (socks : Socks5) : Bool × Socks5 :=
  let ask := [Version, 1, 0]
  let (length, e, socks) := socks.connWrite ask
  if e = true ∨ length ≠ ask.length then (false, socks)
  else socks.validReplyAsk

/-- The method `validReplyConn`; `io.ReadFull(socks.bfr, []byte{})` fills a buffer of
length 0 and so reads nothing. -/
def Socks5.validReplyConn (socks : Socks5) : Bool × Socks5 :=
  let (v, socks) := socks.Valid
  if v then
    let (b, e, r) := socks.bfr.ReadByte
    let socks := { socks with bfr := r }
    let socks := { socks with bfr := (socks.bfr.Read 0).2.2 }
    (decide (e = false ∧ b = REP_0), socks)
  else (false, socks)

def Socks5.Conn (socks : Socks5) (cmd : Nat) : Bool × Socks5 :=
  let req := [Version, cmd % 256, RSV, socks.atyp]
  let req := if socks.atyp = ATYP_DOMAINNAME then req ++ [socks.addr.length % 256] else req
  let req := req ++ socks.addr
  let req := req ++ socks.port
  let (length, e, socks) := socks.connWrite req
  if e = true ∨ length ≠ req.length then (false, socks)
  else socks.validReplyConn

/-- The errors of index.go. -/
inductive Err where
  | ListenErr
  | ConnErr
  | HandlesErr
  deriving DecidableEq

/-- The function `strings.Split(s, sep)` for a one-byte separator. -/
def Split (s : List Nat) (sep : Nat) : List (List Nat) :=
  match s with
  | [] => [[]]
  | b :: rest =>
    if b = sep then [] :: Split rest sep
    else
      match Split rest sep with
      | [] => [[b]]
      | w :: ws => (b :: w) :: ws

/-- The function `strings.ToLower`, modelled on ASCII text (Dial applies it to the
constant "baidu.com" only). -/
def ToLower (s : List Nat) : List Nat :=
  s.map (fun b => if 65 ≤ b ∧ b ≤ 90 then b + 32 else b)

/-- The function `strconv.Atoi`, modelled on unsigned decimal numerals (Dial applies it
to the constant "443" only); on any other text the model gives 0, the value Dial keeps
when the conversion fails. -/
def Atoi (s : List Nat) : Nat :=
  if s ≠ [] ∧ s.all (fun b => decide (48 ≤ b ∧ b ≤ 57)) = true then
    s.foldl (fun acc b => acc * 10 + (b - 48)) 0
  else 0

/-- The function `binary.BigEndian.PutUint16` on a buffer of two bytes. -/
def PutUint16 (v : Nat) : List Nat :=
  [v / 256 % 256, v % 256]

/-- The method `To4` of `net.IP`; the empty list stands for nil. -/
def To4 (ip : List Nat) : List Nat :=
  if ip.length = 4 then ip
  else if ip.length = 16 ∧ ip.take 10 = List.replicate 10 0 ∧ ip.getD 10 0 = 0xff
      ∧ ip.getD 11 0 = 0xff then ip.drop 12
  else []

/-- The method `To16` of `net.IP`; the empty list stands for nil. -/
def To16 (ip : List Nat) : List Nat :=
  if ip.length = 4 then List.replicate 10 0 ++ [0xff, 0xff] ++ ip
  else if ip.length = 16 then ip
  else []

/-- The bytes of an ASCII string literal. -/
def ascii (s : String) : List Nat := s.toList.map Char.toNat

/-- The function `Dial`. `netDial` is `net.Dial("tcp", _)`, giving the connection to the
proxy or `none` on failure; `ParseIP` is `net.ParseIP`, giving `none` for nil. The
result is the returned error (`none` for nil) and the session, when one was created.
The indexing `addrArr[1]` cannot fail: the split string is the constant of line 79. -/
def Dial (network : List Nat) (netDial : List Nat → Option NetConn)
    (ParseIP : List Nat → Option (List Nat)) : Option Err × Option Socks5 :=
  match netDial network with
  | none => (some Err.ConnErr, none)
  | some c =>
    let network := ascii "baidu.com:443"
    let addrArr := Split network 58
    let socks5 := NewSocks5 c
    let socks5 :=
      if ToLower (addrArr.getD 0 []) = ascii "localhost" then
        (socks5.SetAddr ((ParseIP (ascii "127.0.0.1")).getD [])).SetATYP ATYP_IPV4
      else
        match ParseIP (addrArr.getD 0 []) with
        | none => (socks5.SetAddr (addrArr.getD 0 [])).SetATYP ATYP_DOMAINNAME
        | some ip =>
          if (To4 ip).length = 4 then (socks5.SetAddr (To4 ip)).SetATYP ATYP_IPV4
          else (socks5.SetAddr (To16 ip)).SetATYP ATYP_IPV6
    let port := Atoi (addrArr.getD 1 [])
    let portBytes := PutUint16 (port % 65536)
    let socks5 := socks5.SetPort portBytes
    let (asked, socks5) := socks5.Ask
    if asked then
      let (conned, socks5) := socks5.Conn CMD_CONNECT
      if conned then (none, some (socks5.emit Event.connected))
      else (some Err.HandlesErr, some socks5)
    else (some Err.HandlesErr, some socks5)

/-- A connection on which every write succeeds and whose peer sends `bytes`, all of them
delivered by the first read. -/
def NetConn.ofBytes (bytes : List Nat) : NetConn :=
  { incoming := bytes, reads := [], faults := [], wire := [] }

/-- A connection on which every write succeeds and whose peer sends `bytes`, delivered in
pieces of the sizes `reads`. -/
def NetConn.ofReads (bytes : List Nat) (reads : List Nat) : NetConn :=
  { incoming := bytes, reads := reads, faults := [], wire := [] }

/-- The number of bytes the first read of the connection delivers. -/
def NetConn.firstRead (c : NetConn) : Nat :=
  match c.reads with
  | [] => c.incoming.length
  | k :: _ => min k c.incoming.length

/-- A reader whose buffer holds all of `bytes`. -/
def Reader.ofBytes (bytes : List Nat) : Reader :=
  { pending := bytes, buffered := bytes.length, reads := [] }

/-- The endpoints of the data model: IPv4 with 4 address bytes, a domain name of 1 to
255 bytes, IPv6 with 16 address bytes, and 2 port bytes. -/
def Socks5.validEndpoint (socks : Socks5) : Prop :=
  ((socks.atyp = ATYP_IPV4 ∧ socks.addr.length = 4)
    ∨ (socks.atyp = ATYP_DOMAINNAME ∧ 1 ≤ socks.addr.length ∧ socks.addr.length ≤ 255)
    ∨ (socks.atyp = ATYP_IPV6 ∧ socks.addr.length = 16))
  ∧ socks.port.length = 2

instance (socks : Socks5) : Decidable socks.validEndpoint := by
  unfold Socks5.validEndpoint
  infer_instance

/-- The bytes of the request that Conn builds (socks5.go, lines 282-293). -/
def Socks5.request (cl : Socks5) (cmd : Nat) : List Nat :=
  (if cl.atyp = ATYP_DOMAINNAME then [Version, cmd % 256, RSV, cl.atyp] ++ [cl.addr.length % 256]
    else [Version, cmd % 256, RSV, cl.atyp]) ++ cl.addr ++ cl.port

/-- The bytes of the reply that ReplyConn builds (socks5.go, lines 231-241). -/
def Socks5.reply (socks : Socks5) (rep : Nat) : List Nat :=
  (if socks.atyp = ATYP_DOMAINNAME then
      [Version, rep % 256, RSV, socks.atyp] ++ [socks.addr.length % 256]
    else [Version, rep % 256, RSV, socks.atyp]) ++ socks.addr ++ socks.port

/-- Lines 53 to 71 of start: what start does with a session whose method-selection reply
has been written. -/
def requestPhase (socks5 : Socks5) (dial : List Nat → Bool) : Socks5 :=
  let (vc, socks5) := socks5.ValidConn
  if vc = false then socks5.emit Event.closeClient
  else
    let (addr, socks5) := socks5.GetAddr
    match addr with
    | none => socks5.emit Event.closeClient
    | some addr =>
      let ok := dial addr
      let socks5 := socks5.emit (Event.dial addr ok)
      if ok = false then
        let (_, socks5) := socks5.ReplyConn REP_4
        socks5.emit Event.closeClient
      else
        let (e, socks5) := socks5.ReplyConn REP_0
        if e then (socks5.emit Event.closeTarget).emit Event.closeClient
        else
          let socks5 := socks5.emit Event.exchange
          (socks5.emit Event.closeTarget).emit Event.closeClient

/-- The address string GetAddr returns, from the session as it leaves it. -/
def target (d : Socks5) : List Nat :=
  Sprintf d.addr (Uint16 d.port)

/-- The session of start once the greeting with the methods `methods`, delivered whole by
the first read of the connection, has been read and answered, `rest` being the bytes
after the greeting. -/
def answered (c : NetConn) (methods rest : List Nat) (method : Nat) : Socks5 :=
  (({ NewSocks5 c with
      bfr := { pending := rest, buffered := c.firstRead - (methods.length + 2),
               reads := c.reads.tail } }).emit
    (Event.selectMethod methods)).ReplyAsk method

/-- Lines 79 to 103 of Dial: the session built on the connection `c` to the proxy. -/
def dialSession (c : NetConn) (ParseIP : List Nat → Option (List Nat)) : Socks5 :=
  let network := ascii "baidu.com:443"
  let addrArr := Split network 58
  let socks5 := NewSocks5 c
  let socks5 :=
    if ToLower (addrArr.getD 0 []) = ascii "localhost" then
      (socks5.SetAddr ((ParseIP (ascii "127.0.0.1")).getD [])).SetATYP ATYP_IPV4
    else
      match ParseIP (addrArr.getD 0 []) with
      | none => (socks5.SetAddr (addrArr.getD 0 [])).SetATYP ATYP_DOMAINNAME
      | some ip =>
        if (To4 ip).length = 4 then (socks5.SetAddr (To4 ip)).SetATYP ATYP_IPV4
        else (socks5.SetAddr (To16 ip)).SetATYP ATYP_IPV6
  let port := Atoi (addrArr.getD 1 [])
  let portBytes := PutUint16 (port % 65536)
  socks5.SetPort portBytes

/-- Lines 105 to 111 of Dial: the handshake and the callback. -/
def handshake (socks5 : Socks5) : Option Err × Option Socks5 :=
  let (asked, socks5) := socks5.Ask
  if asked then
    let (conned, socks5) := socks5.Conn CMD_CONNECT
    if conned then (none, some (socks5.emit Event.connected))
    else (some Err.HandlesErr, some socks5)
  else (some Err.HandlesErr, some socks5)

/-- The handshake succeeds on the connection `c`: the first two writes are accepted in
full, the method-selection reply begins with 5 and the connect reply with 5, 0. -/
def handshakeOk (c : NetConn) : Prop :=
  c.faults.getD 0 none = none ∧ c.faults.getD 1 none = none
    ∧ ∃ m rest, c.incoming = 5 :: m :: 5 :: 0 :: rest

/-- A client session for a domain name of 256 bytes (256 times the letter a), port 80, on
a connection whose proxy answers a connect reply with code 0. -/
def longDomainSession : Socks5 :=
  { conn := NetConn.ofBytes [5, 0, 0, 1, 0, 0, 0, 0, 0, 0],
    bfr := Reader.ofBytes [5, 0, 0, 1, 0, 0, 0, 0, 0, 0],
    atyp := 3, addr := List.replicate 256 97, port := [0, 80], log := [] }

/-- The text after the last occurrence of the byte `sep` in `s`. -/
def afterLast (sep : Nat) (s : List Nat) : List Nat :=
  (s.reverse.takeWhile (fun b => decide (b ≠ sep))).reverse

/-- A client session for the IPv4 endpoint 127.0.0.1, port 80. -/
def loopbackSession : Socks5 :=
  { conn := NetConn.ofBytes [], bfr := Reader.ofBytes [], atyp := 1, addr := [127, 0, 0, 1],
    port := [0, 80], log := [] }

/-! ## The buffered reader -/

theorem ReadByte_cons (r : Reader) (b : Nat) (rest : List Nat) (h : r.pending = b :: rest) :
    r.ReadByte.1 = b ∧ r.ReadByte.2.1 = false ∧ r.ReadByte.2.2.pending = rest := by
  simp [Reader.ReadByte, h]

theorem ReadByte_nil (r : Reader) (h : r.pending = []) : r.ReadByte = (0, true, r) := by
  simp [Reader.ReadByte, h]

/-! ## C1: the connect reply and the request's address type -/

/-- C1 (code defect): for the request for the domain "example.com", port 80, after the
greeting [5, 1, 0] and with a succeeding dial, the bytes start writes to the client are
the method-selection reply [5, 0] and then the connect reply
[5, 0, 0, 0, e, x, a, m, p, l, e, ., c, o, m, 0, 80]: GetAddr never stores the address
type it reads, so the reply carries ATYP 0 and no length byte, and is not the reply
[5, 0, 0, 3, 11, e, x, a, m, p, l, e, ., c, o, m, 0, 80] that echoes the request. -/
theorem C1_reply_drops_address_type :
    (start (NetConn.ofBytes ([5, 1, 0] ++ [5, 1, 0, 3, 11] ++ ascii "example.com" ++ [0, 80]))
        (fun _ => 0) (fun _ => true)).conn.wire
      = [5, 0] ++ ([5, 0, 0, 0] ++ ascii "example.com" ++ [0, 80])
    ∧ [5, 0, 0, 0] ++ ascii "example.com" ++ [0, 80]
      ≠ [5, 0, 0, 3, 11] ++ ascii "example.com" ++ [0, 80] := by
  decide

/-! ## C2: the request round trip -/

/-- C2 (code defect): for the valid IPv4 endpoint 127.0.0.1, port 80, Conn(CMD_CONNECT) writes
the request [5, 1, 0, 1, 127, 0, 0, 1, 0, 80]. When the connection delivers these ten
bytes to the server in two reads, [5, 1, 0, 1, 127, 0] and [0, 1, 0, 80], ValidConn
returns true and GetAddr returns no error, but the reads of GetAddr copy only what the
buffer holds and their counts are dropped: the server's address is [127, 0, 0, 0], its
port bytes are [0, 1], and the bytes [0, 80] of the request are left unread. -/
theorem C2_split_request_is_misdecoded :
    loopbackSession.validEndpoint
    ∧ (loopbackSession.Conn CMD_CONNECT).2.log
      = [Event.write [5, 1, 0, 1, 127, 0, 0, 1, 0, 80] 10 false]
    ∧ (NewSocks5 (NetConn.ofReads [5, 1, 0, 1, 127, 0, 0, 1, 0, 80] [6])).ValidConn.1 = true
    ∧ (NewSocks5 (NetConn.ofReads [5, 1, 0, 1, 127, 0, 0, 1, 0, 80] [6])).ValidConn.2.GetAddr.1
        = some ([127, 0, 0, 0] ++ ascii ":1")
    ∧ (NewSocks5 (NetConn.ofReads [5, 1, 0, 1, 127, 0, 0, 1, 0, 80] [6])).ValidConn.2.GetAddr.2.addr
        = [127, 0, 0, 0]
    ∧ (NewSocks5 (NetConn.ofReads [5, 1, 0, 1, 127, 0, 0, 1, 0, 80] [6])).ValidConn.2.GetAddr.2.port
        = [0, 1]
    ∧ (NewSocks5
          (NetConn.ofReads [5, 1, 0, 1, 127, 0, 0, 1, 0, 80] [6])).ValidConn.2.GetAddr.2.bfr.pending
        = [0, 80] := by
  decide

/-! ## C3: an undefined address type -/

/-- C3 (code defect): on the request [5, 1, 0, 2, 0, 80], whose address type 0x02 is
undefined, GetAddr returns the address ":80" and no error (its switch has no default
case and the two bytes after the type are taken as the port), and start, after the
greeting [5, 1, 0], dials ":80", writes the connect reply [5, 0, 0, 0, 0, 80] and starts
the relay. -/
theorem C3_undefined_atyp_is_dialed :
    (NewSocks5 (NetConn.ofBytes [2, 0, 80])).GetAddr.1 = some (ascii ":80")
    ∧ (start (NetConn.ofBytes ([5, 1, 0] ++ [5, 1, 0, 2, 0, 80])) (fun _ => 0) (fun _ => true)).log
      = [Event.selectMethod [0], Event.write [5, 0] 2 false, Event.dial (ascii ":80") true,
          Event.write [5, 0, 0, 0, 0, 80] 6 false, Event.exchange, Event.closeTarget,
          Event.closeClient] := by
  decide

/-! ## C7: the greeting and the method-selection reply -/

/-- C7 (code defect): when the greeting [5, 2, 0, 1], which advertises the methods 0 and 1,
is delivered in two reads, [5, 2, 0] and [1], GetMethods copies the one method byte the
buffer holds and drops the count: start calls SelectMethod with [0, 0], not with the
advertised [0, 1], writes [5, SelectMethod([0, 0])], and then takes the unread method
byte 1 for the version byte of the request and closes. Delivered by one read, the same
greeting gives SelectMethod the methods [0, 1]. -/
theorem C7_split_greeting_loses_methods :
    (start (NetConn.ofReads [5, 2, 0, 1] [3]) (fun ms => if ms = [0, 1] then 1 else 0)
        (fun _ => true)).log
      = [Event.selectMethod [0, 0], Event.write [5, 0] 2 false, Event.closeClient]
    ∧ (start (NetConn.ofReads [5, 2, 0, 1] [4]) (fun ms => if ms = [0, 1] then 1 else 0)
        (fun _ => true)).log
      = [Event.selectMethod [0, 1], Event.write [5, 1] 2 false, Event.closeClient] := by
  decide

/-! ## What the methods of the session leave unchanged -/

theorem Valid_frame (s : Socks5) :
    s.Valid.2.conn = s.conn ∧ s.Valid.2.log = s.log ∧ s.Valid.2.atyp = s.atyp
      ∧ s.Valid.2.addr = s.addr ∧ s.Valid.2.port = s.port := by
  simp only [Socks5.Valid]
  split_ifs <;> simp

theorem GetMethods_frame (s : Socks5) :
    s.GetMethods.2.conn = s.conn ∧ s.GetMethods.2.log = s.log ∧ s.GetMethods.2.atyp = s.atyp
      ∧ s.GetMethods.2.addr = s.addr ∧ s.GetMethods.2.port = s.port := by
  simp only [Socks5.GetMethods]
  split_ifs <;> simp

theorem ValidConn_frame (s : Socks5) :
    s.ValidConn.2.conn = s.conn ∧ s.ValidConn.2.log = s.log ∧ s.ValidConn.2.atyp = s.atyp
      ∧ s.ValidConn.2.addr = s.addr ∧ s.ValidConn.2.port = s.port := by
  simp only [Socks5.ValidConn, Socks5.Valid]
  split_ifs <;> simp

theorem GetAddr_frame (s : Socks5) :
    s.GetAddr.2.conn = s.conn ∧ s.GetAddr.2.log = s.log ∧ s.GetAddr.2.atyp = s.atyp := by
  simp only [Socks5.GetAddr]
  split_ifs <;> simp

theorem ReplyAsk_eq (s : Socks5) (m : Nat) :
    s.ReplyAsk m = { s with conn := (s.conn.Write [5, m]).2.2,
                            log := s.log ++ [Event.write [5, m] (s.conn.Write [5, m]).1
                              (s.conn.Write [5, m]).2.1] } := by
  simp [Socks5.ReplyAsk, Socks5.connWrite, Version]

theorem ReplyConn_eq (s : Socks5) (rep : Nat) :
    s.ReplyConn rep = ((s.conn.Write (s.reply rep)).2.1,
      { s with conn := (s.conn.Write (s.reply rep)).2.2,
               log := s.log ++ [Event.write (s.reply rep) (s.conn.Write (s.reply rep)).1
                 (s.conn.Write (s.reply rep)).2.1] }) := by
  simp only [Socks5.ReplyConn, Socks5.connWrite, Socks5.reply]

theorem Write_length_of_ok (c : NetConn) (p : List Nat) (h : (c.Write p).2.1 = false) :
    (c.Write p).1 = p.length := by
  unfold NetConn.Write at *
  rcases hf : c.faults with _ | ⟨_ | k, fs⟩ <;> simp_all

theorem reply_shape (d : Socks5) (rep : Nat) :
    ∃ bnd, d.reply rep = 5 :: (rep % 256) :: 0 :: bnd ∧ (d.reply rep).length = bnd.length + 3 := by
  unfold Socks5.reply
  split_ifs
  · exact ⟨[d.atyp] ++ [d.addr.length % 256] ++ d.addr ++ d.port, by simp [Version, RSV],
      by simp⟩
  · exact ⟨[d.atyp] ++ d.addr ++ d.port, by simp [Version, RSV], by simp⟩

/-! ## The two phases of start -/

theorem start_eq (c : NetConn) (sel : List Nat → Nat) (dial : List Nat → Bool) :
    start c sel dial =
      if (NewSocks5 c).Valid.1 = false then (NewSocks5 c).Valid.2.emit Event.closeClient
      else
        match (NewSocks5 c).Valid.2.GetMethods with
        | (none, s) => s.emit Event.closeClient
        | (some ms, s) => requestPhase ((s.emit (Event.selectMethod ms)).ReplyAsk (sel ms)) dial := by
  unfold start requestPhase
  rcases hv : (NewSocks5 c).Valid with ⟨v, s⟩
  cases v
  · simp [hv]
  · rcases hm : s.GetMethods with ⟨m, s2⟩
    cases m <;> simp [hv, hm]

theorem requestPhase_invalid (s : Socks5) (dial : List Nat → Bool)
    (h : s.ValidConn.1 = false) : (requestPhase s dial).log = s.log ++ [Event.closeClient] := by
  unfold requestPhase
  rcases hv : s.ValidConn with ⟨v, s1⟩
  have hf := (ValidConn_frame s).2.1
  rw [hv] at h hf
  simp only at h hf
  subst h
  simp [Socks5.emit, hf]

theorem requestPhase_no_addr (s : Socks5) (dial : List Nat → Bool)
    (h : s.ValidConn.1 = true) (ha : s.ValidConn.2.GetAddr.1 = none) :
    (requestPhase s dial).log = s.log ++ [Event.closeClient] := by
  unfold requestPhase
  rcases hv : s.ValidConn with ⟨v, s1⟩
  have hf := (ValidConn_frame s).2.1
  rw [hv] at h ha hf
  simp only at h ha hf
  subst h
  rcases hg : s1.GetAddr with ⟨a, d⟩
  have hf2 := (GetAddr_frame s1).2.1
  rw [hg] at ha hf2
  simp only at ha hf2
  subst ha
  simp [hg, Socks5.emit, hf, hf2]

/-- The log of the second phase when the request is decoded: the dial, the reply, and the
relay when both succeed. -/
theorem requestPhase_addr (s : Socks5) (dial : List Nat → Bool) (a : List Nat) (d : Socks5)
    (h : s.ValidConn.1 = true) (ha : s.ValidConn.2.GetAddr = (some a, d)) :
    (requestPhase s dial).log =
      s.log ++ Event.dial a (dial a) ::
        (if dial a = true then
          Event.write (d.reply REP_0) (s.conn.Write (d.reply REP_0)).1
              (s.conn.Write (d.reply REP_0)).2.1 ::
            (if (s.conn.Write (d.reply REP_0)).2.1 = true then
              [Event.closeTarget, Event.closeClient]
            else [Event.exchange, Event.closeTarget, Event.closeClient])
        else
          [Event.write (d.reply REP_4) (s.conn.Write (d.reply REP_4)).1
              (s.conn.Write (d.reply REP_4)).2.1,
            Event.closeClient]) := by
  unfold requestPhase
  rcases hv : s.ValidConn with ⟨v, s1⟩
  obtain ⟨hc1, hl1, -⟩ := ValidConn_frame s
  rw [hv] at h ha hc1 hl1
  simp only at h ha hc1 hl1
  subst h
  obtain ⟨hc2, hl2, -⟩ := GetAddr_frame s1
  rw [ha] at hc2 hl2
  simp only at hc2 hl2
  cases hd : dial a
  · simp [ha, hd, ReplyConn_eq, Socks5.emit, Socks5.reply, hc1, hl1, hc2, hl2]
  · simp [ha, hd, ReplyConn_eq, Socks5.emit, Socks5.reply, hc1, hl1, hc2, hl2]
    split_ifs <;> simp

/-! ## The second phase and the bytes of the stream -/

theorem ValidConn_fst (s : Socks5) :
    s.ValidConn.1 = true ↔ ∃ rest, s.bfr.pending = 5 :: 1 :: rest := by
  rcases hb : s.bfr.pending with _ | ⟨a, _ | ⟨b, r⟩⟩
  · simp [Socks5.ValidConn, Socks5.Valid, Reader.ReadByte, hb]
  · by_cases ha : a = 5 <;>
      simp [Socks5.ValidConn, Socks5.Valid, Reader.ReadByte, hb, Version, ha]
  · by_cases ha : a = 5 <;> by_cases hb1 : b = 1 <;>
      simp [Socks5.ValidConn, Socks5.Valid, Reader.ReadByte, hb, Version, CMD_CONNECT, ha, hb1]

theorem ValidConn_pending (s : Socks5) (rest : List Nat) (h : s.bfr.pending = 5 :: 1 :: rest) :
    s.ValidConn.2.bfr.pending = rest.tail := by
  rcases rest with _ | ⟨r, rest⟩ <;>
    simp [Socks5.ValidConn, Socks5.Valid, Reader.ReadByte, h, Version, CMD_CONNECT]

theorem GetAddr_fst_none (s : Socks5) : s.GetAddr.1 = none ↔ s.bfr.pending = [] := by
  rcases hb : s.bfr.pending with _ | ⟨t, rest⟩
  · simp [Socks5.GetAddr, Reader.ReadByte, hb]
  · simp only [Socks5.GetAddr, Reader.ReadByte, hb]
    simp

theorem GetAddr_fst_some (s : Socks5) (h : s.bfr.pending ≠ []) :
    s.GetAddr = (some (target s.GetAddr.2), s.GetAddr.2) := by
  rcases hb : s.bfr.pending with _ | ⟨t, rest⟩
  · exact absurd hb h
  · simp only [Socks5.GetAddr, Reader.ReadByte, hb, target]
    simp

theorem requestPhase_no_header (s : Socks5) (dial : List Nat → Bool)
    (h : ¬ ∃ rsv t rest, s.bfr.pending = 5 :: 1 :: rsv :: t :: rest) :
    (requestPhase s dial).log = s.log ++ [Event.closeClient] := by
  by_cases hv : s.ValidConn.1 = true
  · obtain ⟨rest, hr⟩ := (ValidConn_fst s).1 hv
    apply requestPhase_no_addr s dial hv
    rw [GetAddr_fst_none, ValidConn_pending s rest hr]
    rcases rest with _ | ⟨rsv, _ | ⟨t, r⟩⟩
    · rfl
    · rfl
    · exact absurd ⟨rsv, t, r, hr⟩ h
  · exact requestPhase_invalid s dial (by simpa using hv)

theorem requestPhase_header (s : Socks5) (dial : List Nat → Bool) (rsv t : Nat)
    (rest : List Nat) (h : s.bfr.pending = 5 :: 1 :: rsv :: t :: rest) :
    (requestPhase s dial).log =
      s.log ++ Event.dial (target s.ValidConn.2.GetAddr.2)
          (dial (target s.ValidConn.2.GetAddr.2)) ::
        (if dial (target s.ValidConn.2.GetAddr.2) = true then
          Event.write (s.ValidConn.2.GetAddr.2.reply REP_0)
              (s.conn.Write (s.ValidConn.2.GetAddr.2.reply REP_0)).1
              (s.conn.Write (s.ValidConn.2.GetAddr.2.reply REP_0)).2.1 ::
            (if (s.conn.Write (s.ValidConn.2.GetAddr.2.reply REP_0)).2.1 = true then
              [Event.closeTarget, Event.closeClient]
            else [Event.exchange, Event.closeTarget, Event.closeClient])
        else
          [Event.write (s.ValidConn.2.GetAddr.2.reply REP_4)
              (s.conn.Write (s.ValidConn.2.GetAddr.2.reply REP_4)).1
              (s.conn.Write (s.ValidConn.2.GetAddr.2.reply REP_4)).2.1,
            Event.closeClient]) := by
  have hv : s.ValidConn.1 = true := (ValidConn_fst s).2 ⟨_, h⟩
  have hp := ValidConn_pending s _ h
  exact requestPhase_addr s dial _ _ hv (GetAddr_fst_some _ (by rw [hp]; simp))

/-! ## The greeting delivered by one read -/

theorem fill_first (c : NetConn) (h : 0 < c.firstRead) :
    ({ pending := c.incoming, buffered := 0, reads := c.reads } : Reader).fill
      = { pending := c.incoming, buffered := c.firstRead, reads := c.reads.tail } := by
  unfold NetConn.firstRead at *
  rcases hr : c.reads with _ | ⟨k, ks⟩
  · simp [Reader.fill, nextRead]
  · rw [hr] at h
    have hk : k ≠ 0 := by
      intro hk
      simp [hk] at h
    simp [Reader.fill, nextRead, hk]

theorem Read_whole (r : Reader) (l rest : List Nat) (hp : r.pending = l ++ rest)
    (hb : l.length ≤ r.buffered) :
    r.Read l.length = (l, false,
      { pending := rest, buffered := r.buffered - l.length, reads := r.reads }) := by
  rcases l with _ | ⟨x, l⟩
  · cases r
    simp_all [Reader.Read]
  · have hb0 : r.buffered ≠ 0 := by
      simp at hb
      omega
    have hm : min (List.length (x :: l)) r.buffered = (x :: l).length := Nat.min_eq_left hb
    have hro : r.readOnce = r := by simp [Reader.readOnce, hb0]
    simp only [Reader.Read, hp, hro, hm]
    simp

theorem start_of_greeting (c : NetConn) (sel : List Nat → Nat) (dial : List Nat → Bool)
    (n : Nat) (methods rest : List Nat) (hin : c.incoming = 5 :: n :: (methods ++ rest))
    (hn : methods.length = n) (hread : n + 2 ≤ c.firstRead) :
    start c sel dial = requestPhase (answered c methods rest (sel methods)) dial := by
  subst hn
  have hf := fill_first c (by omega)
  rw [hin] at hf
  have hV : (NewSocks5 c).Valid = (true, { NewSocks5 c with
      bfr := ⟨methods.length :: (methods ++ rest), c.firstRead - 1, c.reads.tail⟩ }) := by
    simp [NewSocks5, Socks5.Valid, Reader.ReadByte, hin, hf, Version]
  have hne : c.firstRead - 1 ≠ 0 := by omega
  have hfill2 : (⟨methods.length :: (methods ++ rest), c.firstRead - 1, c.reads.tail⟩ : Reader).fill
      = ⟨methods.length :: (methods ++ rest), c.firstRead - 1, c.reads.tail⟩ := by
    simp [Reader.fill, hne]
  have hR := Read_whole ⟨methods ++ rest, c.firstRead - 1 - 1, c.reads.tail⟩ methods rest rfl
    (by simp only; omega)
  have hsub : c.firstRead - 1 - 1 - methods.length = c.firstRead - (methods.length + 2) := by
    omega
  have hG : ({ NewSocks5 c with
      bfr := ⟨methods.length :: (methods ++ rest), c.firstRead - 1, c.reads.tail⟩ } : Socks5).GetMethods
      = (some methods, { NewSocks5 c with
          bfr := ⟨rest, c.firstRead - (methods.length + 2), c.reads.tail⟩ }) := by
    simp only [Socks5.GetMethods, Reader.ReadByte, hfill2, hR, hsub]
    simp
  rw [start_eq, hV]
  simp only [Bool.true_eq_false, if_false]
  rw [hG]
  rfl

theorem answered_log (c : NetConn) (methods rest : List Nat) (m : Nat) :
    (answered c methods rest m).log = [Event.selectMethod methods,
      Event.write [5, m] (c.Write [5, m]).1 (c.Write [5, m]).2.1] := by
  simp [answered, ReplyAsk_eq, Socks5.emit, NewSocks5]

theorem answered_pending (c : NetConn) (methods rest : List Nat) (m : Nat) :
    (answered c methods rest m).bfr.pending = rest := by
  simp [answered, ReplyAsk_eq, Socks5.emit, NewSocks5]

theorem answered_conn (c : NetConn) (methods rest : List Nat) (m : Nat) :
    (answered c methods rest m).conn = (c.Write [5, m]).2.2 := by
  simp [answered, ReplyAsk_eq, Socks5.emit, NewSocks5]

/-- The log of start for a greeting delivered whole and followed by the header of a
CONNECT request; `d` is the session as GetAddr leaves it. -/
theorem start_log_header (c : NetConn) (sel : List Nat → Nat) (dial : List Nat → Bool)
    (n rsv t : Nat) (methods rest : List Nat)
    (hin : c.incoming = 5 :: n :: (methods ++ 5 :: 1 :: rsv :: t :: rest))
    (hn : methods.length = n) (hread : n + 2 ≤ c.firstRead) :
    ∃ d : Socks5,
      (answered c methods (5 :: 1 :: rsv :: t :: rest) (sel methods)).ValidConn.2.GetAddr
        = (some (target d), d) ∧
      (start c sel dial).log =
        [Event.selectMethod methods,
          Event.write [5, sel methods] (c.Write [5, sel methods]).1 (c.Write [5, sel methods]).2.1,
          Event.dial (target d) (dial (target d))] ++
        (if dial (target d) = true then
          Event.write (d.reply REP_0)
              ((c.Write [5, sel methods]).2.2.Write (d.reply REP_0)).1
              ((c.Write [5, sel methods]).2.2.Write (d.reply REP_0)).2.1 ::
            (if ((c.Write [5, sel methods]).2.2.Write (d.reply REP_0)).2.1 = true then
              [Event.closeTarget, Event.closeClient]
            else [Event.exchange, Event.closeTarget, Event.closeClient])
        else
          [Event.write (d.reply REP_4)
              ((c.Write [5, sel methods]).2.2.Write (d.reply REP_4)).1
              ((c.Write [5, sel methods]).2.2.Write (d.reply REP_4)).2.1,
            Event.closeClient]) := by
  have hp := answered_pending c methods (5 :: 1 :: rsv :: t :: rest) (sel methods)
  have hvp := ValidConn_pending _ _ hp
  refine ⟨_, GetAddr_fst_some _ (by rw [hvp]; simp), ?_⟩
  rw [start_of_greeting c sel dial n methods _ hin hn hread,
    requestPhase_header _ dial rsv t rest hp, answered_log, answered_conn]
  simp

/-- The log of start for a greeting delivered whole that no header of a CONNECT request
follows. -/
theorem start_log_no_header (c : NetConn) (sel : List Nat → Nat) (dial : List Nat → Bool)
    (n : Nat) (methods rest : List Nat)
    (hin : c.incoming = 5 :: n :: (methods ++ rest)) (hn : methods.length = n)
    (hread : n + 2 ≤ c.firstRead)
    (h : ¬ ∃ rsv t r, rest = 5 :: 1 :: rsv :: t :: r) :
    (start c sel dial).log =
      [Event.selectMethod methods,
        Event.write [5, sel methods] (c.Write [5, sel methods]).1 (c.Write [5, sel methods]).2.1,
        Event.closeClient] := by
  rw [start_of_greeting c sel dial n methods _ hin hn hread, requestPhase_no_header, answered_log]
  · simp
  · rw [answered_pending]
    exact h

/-! ## The shapes of a run of start, however the stream is delivered -/

theorem requestPhase_shape (s : Socks5) (dial : List Nat → Bool) :
    (requestPhase s dial).log = s.log ++ [Event.closeClient]
    ∨ ∃ (a : List Nat) (d : Socks5), (requestPhase s dial).log =
        s.log ++ Event.dial a (dial a) ::
          (if dial a = true then
            Event.write (d.reply REP_0) (s.conn.Write (d.reply REP_0)).1
                (s.conn.Write (d.reply REP_0)).2.1 ::
              (if (s.conn.Write (d.reply REP_0)).2.1 = true then
                [Event.closeTarget, Event.closeClient]
              else [Event.exchange, Event.closeTarget, Event.closeClient])
          else
            [Event.write (d.reply REP_4) (s.conn.Write (d.reply REP_4)).1
                (s.conn.Write (d.reply REP_4)).2.1,
              Event.closeClient]) := by
  by_cases hv : s.ValidConn.1 = true
  · rcases hg : s.ValidConn.2.GetAddr with ⟨a, d⟩
    cases a with
    | none => exact Or.inl (requestPhase_no_addr s dial hv (by rw [hg]))
    | some a => exact Or.inr ⟨a, d, requestPhase_addr s dial a d hv hg⟩
  · exact Or.inl (requestPhase_invalid s dial (by simpa using hv))

theorem start_shape (c : NetConn) (sel : List Nat → Nat) (dial : List Nat → Bool) :
    (start c sel dial).log = [Event.closeClient]
    ∨ ∃ ms s1, s1.log = [Event.selectMethod ms,
          Event.write [5, sel ms] (c.Write [5, sel ms]).1 (c.Write [5, sel ms]).2.1]
        ∧ s1.conn = (c.Write [5, sel ms]).2.2
        ∧ (start c sel dial).log = (requestPhase s1 dial).log := by
  rw [start_eq]
  obtain ⟨hc1, hl1, -⟩ := Valid_frame (NewSocks5 c)
  have hl0 : (NewSocks5 c).log = [] := rfl
  have hc0 : (NewSocks5 c).conn = c := rfl
  rw [hl0] at hl1
  rw [hc0] at hc1
  by_cases hv : (NewSocks5 c).Valid.1 = false
  · left
    rw [if_pos hv]
    simp [Socks5.emit, hl1]
  · rw [if_neg hv]
    obtain ⟨hc2, hl2, -⟩ := GetMethods_frame (NewSocks5 c).Valid.2
    rw [hl1] at hl2
    rw [hc1] at hc2
    rcases hg : (NewSocks5 c).Valid.2.GetMethods with ⟨m, s2⟩
    rw [hg] at hc2 hl2
    simp only at hc2 hl2
    cases m with
    | none =>
      left
      simp [Socks5.emit, hl2]
    | some ms =>
      right
      refine ⟨ms, (s2.emit (Event.selectMethod ms)).ReplyAsk (sel ms), ?_, ?_, rfl⟩
      · simp [ReplyAsk_eq, Socks5.emit, hl2, hc2]
      · simp [ReplyAsk_eq, Socks5.emit, hc2]

/-! ## C4: commands other than CONNECT -/

/-- C4 (as stated, refuted): after the greeting [5, 1, 0], on the BIND request
[5, 2, 0, 1, 127, 0, 0, 1, 0, 80], start only writes the method-selection reply [5, 0]
and closes; no write carries the reply code 7. -/
theorem C4_no_reply_for_bind :
    (start (NetConn.ofBytes ([5, 1, 0] ++ [5, 2, 0, 1, 127, 0, 0, 1, 0, 80]))
        (fun _ => 0) (fun _ => true)).log
      = [Event.selectMethod [0], Event.write [5, 0] 2 false, Event.closeClient]
    ∧ ¬ ∃ p n e, Event.write p n e ∈
          (start (NetConn.ofBytes ([5, 1, 0] ++ [5, 2, 0, 1, 127, 0, 0, 1, 0, 80]))
            (fun _ => 0) (fun _ => true)).log
        ∧ p.getD 1 0 = REP_7 := by
  have hlog : (start (NetConn.ofBytes ([5, 1, 0] ++ [5, 2, 0, 1, 127, 0, 0, 1, 0, 80]))
        (fun _ => 0) (fun _ => true)).log
      = [Event.selectMethod [0], Event.write [5, 0] 2 false, Event.closeClient] := by decide
  refine ⟨hlog, ?_⟩
  rw [hlog]
  rintro ⟨p, n, e, hmem, hp⟩
  simp at hmem
  obtain ⟨rfl, -, -⟩ := hmem
  simp [REP_7] at hp

/-- C4 (amended): when a greeting, delivered whole by the first read of the connection, is
followed by a version-5 request whose command byte is BIND (2) or UDP-ASSOCIATE (3),
start writes nothing after the method-selection reply, so no connect reply at all, never
dials, never starts the relay, and closes the client connection; this holds however the
bytes after the greeting are delivered. -/
theorem C4_other_commands_closed_silently (c : NetConn) (sel : List Nat → Nat)
    (dial : List Nat → Bool) (n cmd : Nat) (methods rest : List Nat)
    (hin : c.incoming = 5 :: n :: (methods ++ 5 :: cmd :: rest)) (hn : methods.length = n)
    (hread : n + 2 ≤ c.firstRead) (hcmd : cmd = CMD_BIND ∨ cmd = CMD_UDP) :
    (start c sel dial).log =
      [Event.selectMethod methods,
        Event.write [5, sel methods] (c.Write [5, sel methods]).1 (c.Write [5, sel methods]).2.1,
        Event.closeClient] := by
  apply start_log_no_header c sel dial n methods _ hin hn hread
  rintro ⟨rsv, t, r, h⟩
  rcases hcmd with rfl | rfl <;> simp [CMD_BIND, CMD_UDP] at h

/-- Witness of C4 (amended): the BIND request [5, 2, 0, 1, 127, 0, 0, 1, 0, 80], the
greeting delivered by a first read of three bytes and the request by the next. -/
theorem C4_other_commands_closed_silently_witness :
    (1 + 2 ≤ (NetConn.ofReads [5, 1, 0, 5, 2, 0, 1, 127, 0, 0, 1, 0, 80] [3]).firstRead)
    ∧ (CMD_BIND = CMD_BIND ∨ CMD_BIND = CMD_UDP)
    ∧ (start (NetConn.ofReads [5, 1, 0, 5, 2, 0, 1, 127, 0, 0, 1, 0, 80] [3])
        (fun _ => 0) (fun _ => true)).log =
      [Event.selectMethod [0], Event.write [5, 0] 2 false, Event.closeClient] :=
  ⟨by decide, Or.inl rfl, C4_other_commands_closed_silently
    (NetConn.ofReads [5, 1, 0, 5, 2, 0, 1, 127, 0, 0, 1, 0, 80] [3]) (fun _ => 0) (fun _ => true)
    1 CMD_BIND [0] [0, 1, 127, 0, 0, 1, 0, 80] rfl rfl (by decide) (Or.inl rfl)⟩

/-! ## C5: the method 0xFF -/

/-- C5 (as stated, refuted): with a strategy returning 0xFF, on the greeting [5, 1, 0]
followed by the request for the domain "example.com", port 80, and a dial that succeeds
for "example.com:80", start reads the request, dials, writes a connect reply and starts
the relay. -/
theorem C5_rejection_is_not_enforced :
    (start (NetConn.ofBytes ([5, 1, 0] ++ [5, 1, 0, 3, 11] ++ ascii "example.com" ++ [0, 80]))
        (fun _ => 0xFF) (fun a => decide (a = ascii "example.com:80"))).log
      = [Event.selectMethod [0], Event.write [5, 0xFF] 2 false,
          Event.dial (ascii "example.com:80") true,
          Event.write ([5, 0, 0, 0] ++ ascii "example.com" ++ [0, 80]) 17 false,
          Event.exchange, Event.closeTarget, Event.closeClient] := by
  decide

/-- C5 (amended): when the strategy returns 0xFF for the methods of a greeting delivered
whole by the first read of the connection, start writes the method-selection reply
[5, 0xFF] and goes on as after any other method. If the header of a version-5 CONNECT
request (5, 1, RSV, ATYP) follows, GetAddr returns an address `addr` and leaves a session
`d`, start dials `addr` and writes the connect reply ReplyConn builds from `d`, with code
0 after a successful dial and 4 otherwise, and then starts the relay exactly when the
dial succeeded and that write returned no error. If no such header follows, start writes
nothing more, never dials, never starts the relay and closes the client connection. -/
theorem C5_method_ff_goes_on (c : NetConn) (sel : List Nat → Nat) (dial : List Nat → Bool)
    (n : Nat) (methods rest : List Nat)
    (hin : c.incoming = 5 :: n :: (methods ++ rest)) (hn : methods.length = n)
    (hread : n + 2 ≤ c.firstRead) (hsel : sel methods = 0xFF) :
    ((∃ rsv t r, rest = 5 :: 1 :: rsv :: t :: r) →
      ∃ (addr : List Nat) (d : Socks5),
        (answered c methods rest 0xFF).ValidConn.2.GetAddr = (some addr, d)
        ∧ (start c sel dial).log =
          [Event.selectMethod methods,
            Event.write [5, 0xFF] (c.Write [5, 0xFF]).1 (c.Write [5, 0xFF]).2.1,
            Event.dial addr (dial addr)] ++
          (if dial addr = true then
            Event.write (d.reply REP_0)
                ((c.Write [5, 0xFF]).2.2.Write (d.reply REP_0)).1
                ((c.Write [5, 0xFF]).2.2.Write (d.reply REP_0)).2.1 ::
              (if ((c.Write [5, 0xFF]).2.2.Write (d.reply REP_0)).2.1 = true then
                [Event.closeTarget, Event.closeClient]
              else [Event.exchange, Event.closeTarget, Event.closeClient])
          else
            [Event.write (d.reply REP_4)
                ((c.Write [5, 0xFF]).2.2.Write (d.reply REP_4)).1
                ((c.Write [5, 0xFF]).2.2.Write (d.reply REP_4)).2.1,
              Event.closeClient]))
    ∧ ((¬ ∃ rsv t r, rest = 5 :: 1 :: rsv :: t :: r) →
      (start c sel dial).log =
        [Event.selectMethod methods,
          Event.write [5, 0xFF] (c.Write [5, 0xFF]).1 (c.Write [5, 0xFF]).2.1,
          Event.closeClient]) := by
  constructor
  · rintro ⟨rsv, t, r, rfl⟩
    obtain ⟨d, hd, hlog⟩ := start_log_header c sel dial n rsv t methods r hin hn hread
    rw [hsel] at hlog hd
    exact ⟨target d, d, hd, hlog⟩
  · intro hh
    rw [start_log_no_header c sel dial n methods rest hin hn hread hh, hsel]

/-- Witness of C5 (amended): a strategy returning 0xFF, the greeting [5, 1, 0] and the
request for the domain "example.com", port 80, with a dial that succeeds for
"example.com:80". -/
theorem C5_method_ff_goes_on_witness :
    (NetConn.ofBytes ([5, 1, 0, 5, 1, 0, 3, 11] ++ ascii "example.com" ++ [0, 80])).incoming
      = 5 :: 1 :: ([0] ++ ([5, 1, 0, 3, 11] ++ ascii "example.com" ++ [0, 80]))
    ∧ 1 + 2 ≤ (NetConn.ofBytes
        ([5, 1, 0, 5, 1, 0, 3, 11] ++ ascii "example.com" ++ [0, 80])).firstRead
    ∧ (fun _ => 0xFF : List Nat → Nat) [0] = 0xFF
    ∧ ∃ (addr : List Nat) (d : Socks5),
        (answered (NetConn.ofBytes ([5, 1, 0, 5, 1, 0, 3, 11] ++ ascii "example.com" ++ [0, 80]))
            [0] ([5, 1, 0, 3, 11] ++ ascii "example.com" ++ [0, 80]) 0xFF).ValidConn.2.GetAddr
          = (some addr, d)
        ∧ (start (NetConn.ofBytes ([5, 1, 0, 5, 1, 0, 3, 11] ++ ascii "example.com" ++ [0, 80]))
            (fun _ => 0xFF) (fun a => decide (a = ascii "example.com:80"))).log =
          [Event.selectMethod [0], Event.write [5, 0xFF] 2 false,
            Event.dial addr ((fun a => decide (a = ascii "example.com:80")) addr)] ++
          (if (fun a => decide (a = ascii "example.com:80")) addr = true then
            Event.write (d.reply REP_0) (d.reply REP_0).length false ::
              (if false = true then [Event.closeTarget, Event.closeClient]
              else [Event.exchange, Event.closeTarget, Event.closeClient])
          else [Event.write (d.reply REP_4) (d.reply REP_4).length false, Event.closeClient]) :=
  ⟨by decide, by decide, rfl,
    (C5_method_ff_goes_on
      (NetConn.ofBytes ([5, 1, 0, 5, 1, 0, 3, 11] ++ ascii "example.com" ++ [0, 80]))
      (fun _ => 0xFF) (fun a => decide (a = ascii "example.com:80")) 1 [0]
      ([5, 1, 0, 3, 11] ++ ascii "example.com" ++ [0, 80]) (by decide) rfl (by decide) rfl).1
      ⟨0, 3, 11 :: (ascii "example.com" ++ [0, 80]), by decide⟩⟩

/-! ## C6: when the relay starts -/

/-- C6 (code defect): after the greeting [5, 1, 0], on the bytes [5, 1, 0, 9, 31, 144],
which carry the undefined address type 9 and no address, so are not a CONNECT request,
and with a dial that succeeds for ":8080", start dials ":8080", writes the connect reply
[5, 0, 0, 0, 31, 144] and starts the relay. -/
theorem C6_relay_without_connect_request :
    (start (NetConn.ofBytes ([5, 1, 0] ++ [5, 1, 0, 9, 31, 144])) (fun _ => 0)
        (fun a => decide (a = ascii ":8080"))).log
      = [Event.selectMethod [0], Event.write [5, 0] 2 false, Event.dial (ascii ":8080") true,
          Event.write [5, 0, 0, 0, 31, 144] 6 false, Event.exchange, Event.closeTarget,
          Event.closeClient] := by
  decide

/-! ## C10: a wrong version byte -/

/-- C10: if the client stream does not begin with the byte 5, start writes nothing, never
dials, never starts the relay and only closes the client connection; and if a greeting,
delivered whole by the first read of the connection, is followed by a byte other than 5,
start writes nothing after the method-selection reply, never dials, never starts the
relay and closes. -/
theorem C10_version_mismatch (c : NetConn) (sel : List Nat → Nat) (dial : List Nat → Bool) :
    (c.incoming.head? ≠ some 5 → (start c sel dial).log = [Event.closeClient])
    ∧ (∀ (n b : Nat) (methods rest : List Nat),
        c.incoming = 5 :: n :: (methods ++ b :: rest) → methods.length = n →
        n + 2 ≤ c.firstRead → b ≠ 5 →
        (start c sel dial).log =
          [Event.selectMethod methods,
            Event.write [5, sel methods] (c.Write [5, sel methods]).1
              (c.Write [5, sel methods]).2.1,
            Event.closeClient]) := by
  constructor
  · intro h
    rw [start_eq]
    rcases hin : c.incoming with _ | ⟨b, s1⟩
    · simp [NewSocks5, Socks5.Valid, hin, Reader.ReadByte, Socks5.emit]
    · have hb : b ≠ 5 := by
        intro hb
        exact h (by rw [hin, hb]; rfl)
      simp [NewSocks5, Socks5.Valid, hin, Reader.ReadByte, Socks5.emit, Version, hb]
  · intro n b methods rest hin hn hread hb
    apply start_log_no_header c sel dial n methods _ hin hn hread
    rintro ⟨rsv, t, r, h⟩
    simp at h
    exact hb h.1

/-- Witness of C10: the stream [4, 1, 0], and the greeting [5, 1, 0] followed by
[4, 1, 0, 1, 127, 0, 0, 1, 0, 80]. -/
theorem C10_version_mismatch_witness :
    (start (NetConn.ofBytes [4, 1, 0]) (fun _ => 0) (fun _ => true)).log = [Event.closeClient]
    ∧ (start (NetConn.ofBytes [5, 1, 0, 4, 1, 0, 1, 127, 0, 0, 1, 0, 80]) (fun _ => 0)
        (fun _ => true)).log =
      [Event.selectMethod [0], Event.write [5, 0] 2 false, Event.closeClient] :=
  ⟨(C10_version_mismatch (NetConn.ofBytes [4, 1, 0]) (fun _ => 0) (fun _ => true)).1 (by decide),
    (C10_version_mismatch (NetConn.ofBytes [5, 1, 0, 4, 1, 0, 1, 127, 0, 0, 1, 0, 80]) (fun _ => 0)
      (fun _ => true)).2 1 4 [0] [1, 0, 1, 127, 0, 0, 1, 0, 80] rfl rfl (by decide) (by decide)⟩

/-! ## C11: the layout of the connect reply -/

/-- C11: for every session state and every reply code c from 0 to 255, ReplyConn(c) makes
one write, of the bytes [5, c, 0, atyp], then the single byte of the address length
(the length itself for an address of at most 255 bytes) when atyp is 3, then the address
bytes, then the port bytes; the reply has 4 + len(addr) + len(port) bytes, and one more
when atyp is 3. -/
theorem C11_connect_reply_layout (s : Socks5) (c : Nat) (hc : c ≤ 255) :
    ∃ payload n e, (s.ReplyConn c).2.log = s.log ++ [Event.write payload n e]
      ∧ payload = [0x05, c, 0x00, s.atyp]
          ++ (if s.atyp = 0x03 then [s.addr.length % 256] else []) ++ s.addr ++ s.port
      ∧ (s.addr.length ≤ 255 → s.addr.length % 256 = s.addr.length)
      ∧ payload.length
          = 4 + s.addr.length + s.port.length + (if s.atyp = 0x03 then 1 else 0) := by
  refine ⟨s.reply c, (s.conn.Write (s.reply c)).1, (s.conn.Write (s.reply c)).2.1, ?_, ?_, ?_, ?_⟩
  · rw [ReplyConn_eq]
  · have hcm : c % 256 = c := Nat.mod_eq_of_lt (by omega)
    unfold Socks5.reply
    split_ifs <;> simp_all [Version, RSV, ATYP_DOMAINNAME]
  · intro h
    exact Nat.mod_eq_of_lt (by omega)
  · unfold Socks5.reply
    split_ifs <;> simp_all [ATYP_DOMAINNAME] <;> omega

/-- Witness of C11: the reply with code 0 for the domain example.com, port 80. -/
theorem C11_connect_reply_layout_witness :
    (0 : Nat) ≤ 255 ∧
    ∃ payload n e,
      (({ conn := NetConn.ofBytes [], bfr := Reader.ofBytes [], atyp := 3,
          addr := ascii "example.com", port := [0, 80], log := [] } : Socks5).ReplyConn 0).2.log
        = [] ++ [Event.write payload n e]
      ∧ payload = [0x05, 0, 0x00, 3]
          ++ (if (3 : Nat) = 0x03 then [(ascii "example.com").length % 256] else [])
          ++ ascii "example.com" ++ [0, 80]
      ∧ ((ascii "example.com").length ≤ 255 →
          (ascii "example.com").length % 256 = (ascii "example.com").length)
      ∧ payload.length
          = 4 + (ascii "example.com").length + [0, 80].length
            + (if (3 : Nat) = 0x03 then 1 else 0) :=
  ⟨by decide, C11_connect_reply_layout
    { conn := NetConn.ofBytes [], bfr := Reader.ofBytes [], atyp := 3,
      addr := ascii "example.com", port := [0, 80], log := [] } 0 (by decide)⟩

/-! ## C13: a failed dial -/

/-- C13: in every run of start in which the dial to the target fails (so the greeting and
the CONNECT request were decoded), start writes exactly one connect reply, whose REP byte
is 4, writes nothing after it and never starts the relay: the whole run is SelectMethod,
the method-selection reply, the failed dial, the reply [5, 4, 0, ...] and the close of
the client connection. -/
theorem C13_dial_failure_reply (c : NetConn) (sel : List Nat → Nat) (dial : List Nat → Bool)
    (addr : List Nat) (hfail : Event.dial addr false ∈ (start c sel dial).log) :
    ∃ methods k e bnd k2 e2, (start c sel dial).log =
      [Event.selectMethod methods, Event.write [5, sel methods] k e, Event.dial addr false,
        Event.write (5 :: 4 :: 0 :: bnd) k2 e2, Event.closeClient] := by
  rcases start_shape c sel dial with h1 | ⟨ms, s1, hl, hc, h1⟩
  · rw [h1] at hfail
    simp at hfail
  rw [h1] at hfail ⊢
  rcases requestPhase_shape s1 dial with h2 | ⟨a, d, h2⟩
  · rw [h2, hl] at hfail
    simp at hfail
  rw [h2, hl] at hfail ⊢
  obtain ⟨bnd, hb, -⟩ := reply_shape d REP_4
  cases hd : dial a
  · simp only [hd, REP_4] at hfail hb ⊢
    have haddr : addr = a := by simpa using hfail
    subst haddr
    refine ⟨ms, (c.Write [5, sel ms]).1, (c.Write [5, sel ms]).2.1, bnd,
      (s1.conn.Write (d.reply 4)).1, (s1.conn.Write (d.reply 4)).2.1, ?_⟩
    simp [hb]
  · rw [hd] at hfail
    cases he : (s1.conn.Write (d.reply REP_0)).2.1 <;> simp [he] at hfail

/-- Witness of C13: greeting [5, 1, 0], request for the domain "example.com", port 80, a
failing dial. -/
theorem C13_dial_failure_reply_witness :
    Event.dial (ascii "example.com:80") false
        ∈ (start (NetConn.ofBytes ([5, 1, 0, 5, 1, 0, 3, 11] ++ ascii "example.com" ++ [0, 80]))
          (fun _ => 0) (fun _ => false)).log
    ∧ ∃ methods k e bnd k2 e2,
      (start (NetConn.ofBytes ([5, 1, 0, 5, 1, 0, 3, 11] ++ ascii "example.com" ++ [0, 80]))
          (fun _ => 0) (fun _ => false)).log =
      [Event.selectMethod methods, Event.write [5, (fun _ => 0) methods] k e,
        Event.dial (ascii "example.com:80") false,
        Event.write (5 :: 4 :: 0 :: bnd) k2 e2, Event.closeClient] :=
  ⟨by decide, C13_dial_failure_reply _ _ _ _ (by decide)⟩

/-! ## C16: the address string handed to the dialer -/

/-- C16 (code defect): for the IPv4 request with address bytes [127, 0, 0, 1] and port 80,
GetAddr returns the four raw address bytes followed by ":80" (the conversion
`string(socks.addr)`), not the dotted-decimal text "127.0.0.1:80"; for the request for the
domain "example.com", port 80, it returns "example.com:80". -/
theorem C16_ipv4_target_is_raw_bytes :
    (NewSocks5 (NetConn.ofBytes [1, 127, 0, 0, 1, 0, 80])).GetAddr.1
      = some ([127, 0, 0, 1] ++ ascii ":80")
    ∧ [127, 0, 0, 1] ++ ascii ":80" ≠ ascii "127.0.0.1:80"
    ∧ (NewSocks5 (NetConn.ofBytes ([3, 11] ++ ascii "example.com" ++ [0, 80]))).GetAddr.1
      = some (ascii "example.com:80") := by
  decide

/-! ## C17: truncated requests -/

/-- C17 (code defect): on the request [5, 1, 0, 1, 127, 0], whose stream ends after two of
the four address bytes, GetAddr returns no error: the results of its reads of the address
and the port are ignored, the missing bytes stay zero, and the address is the bytes
[127, 0, 0, 0] followed by ":0". After the greeting [5, 1, 0], start dials that address,
writes the connect reply [5, 0, 0, 0, 127, 0, 0, 0, 0, 0] and starts the relay; when the
dial fails, as it does for such an address, start has still dialed and writes the connect
reply [5, 4, 0, 0, 127, 0, 0, 0, 0, 0]. -/
theorem C17_truncated_request_is_dialed :
    (NewSocks5 (NetConn.ofBytes [1, 127, 0])).GetAddr.1
      = some ([127, 0, 0, 0] ++ ascii ":0")
    ∧ (start (NetConn.ofBytes ([5, 1, 0] ++ [5, 1, 0, 1, 127, 0])) (fun _ => 0) (fun _ => true)).log
      = [Event.selectMethod [0], Event.write [5, 0] 2 false,
          Event.dial ([127, 0, 0, 0] ++ ascii ":0") true,
          Event.write [5, 0, 0, 0, 127, 0, 0, 0, 0, 0] 10 false, Event.exchange,
          Event.closeTarget, Event.closeClient]
    ∧ (start (NetConn.ofBytes ([5, 1, 0] ++ [5, 1, 0, 1, 127, 0])) (fun _ => 0)
        (fun _ => false)).log
      = [Event.selectMethod [0], Event.write [5, 0] 2 false,
          Event.dial ([127, 0, 0, 0] ++ ascii ":0") false,
          Event.write [5, 4, 0, 0, 127, 0, 0, 0, 0, 0] 10 false, Event.closeClient] := by
  decide

/-! ## C19: the connections after the relay is started -/

/-- C19 (code defect): on the success path (greeting [5, 1, 0], request for the domain
"example.com", port 80, then the client's bytes "hi", a dial that succeeds for
"example.com:80") the actions of start after the statement `go socks5.Exchange(rc)` are,
at once, the deferred rc.Close() and c.Close(): start waits for nothing, and returns
with the client's bytes "hi" still unread by it. -/
theorem C19_closes_follow_the_spawn :
    (start (NetConn.ofBytes ([5, 1, 0] ++ [5, 1, 0, 3, 11] ++ ascii "example.com" ++ [0, 80]
          ++ ascii "hi"))
        (fun _ => 0) (fun a => decide (a = ascii "example.com:80"))).log
      = [Event.selectMethod [0], Event.write [5, 0] 2 false,
          Event.dial (ascii "example.com:80") true,
          Event.write ([5, 0, 0, 0] ++ ascii "example.com" ++ [0, 80]) 17 false,
          Event.exchange, Event.closeTarget, Event.closeClient]
    ∧ (start (NetConn.ofBytes ([5, 1, 0] ++ [5, 1, 0, 3, 11] ++ ascii "example.com" ++ [0, 80]
          ++ ascii "hi"))
        (fun _ => 0) (fun a => decide (a = ascii "example.com:80"))).bfr.pending
      = ascii "hi" := by
  decide

/-- The log of Conn: one write of the request, whatever the reply. -/
theorem Conn_log (cl : Socks5) (cmd : Nat) :
    (cl.Conn cmd).2.log = cl.log ++ [Event.write (cl.request cmd)
      (cl.conn.Write (cl.request cmd)).1 (cl.conn.Write (cl.request cmd)).2.1] := by
  simp only [Socks5.Conn, Socks5.connWrite, Socks5.validReplyConn, Socks5.Valid, Socks5.request]
  split_ifs <;> rfl

/-! ## The client handshake -/

theorem Dial_eq (network : List Nat) (netDial : List Nat → Option NetConn)
    (ParseIP : List Nat → Option (List Nat)) :
    Dial network netDial ParseIP =
      match netDial network with
      | none => (some Err.ConnErr, none)
      | some c => handshake (dialSession c ParseIP) := by
  unfold Dial handshake dialSession
  rfl

theorem dialSession_frame (c : NetConn) (ParseIP : List Nat → Option (List Nat)) :
    (dialSession c ParseIP).conn = c ∧ (dialSession c ParseIP).bfr.pending = c.incoming
      ∧ (dialSession c ParseIP).log = [] := by
  unfold dialSession
  simp only [Socks5.SetPort, Socks5.SetAddr, Socks5.SetATYP, NewSocks5]
  split_ifs <;> first | exact ⟨rfl, rfl, rfl⟩ | (split <;> [skip; split_ifs] <;> exact ⟨rfl, rfl, rfl⟩)

theorem Ask_fst (s : Socks5) :
    s.Ask.1 = true ↔ s.conn.faults.getD 0 none = none ∧ s.bfr.pending.head? = some 5 := by
  rcases hf : s.conn.faults with _ | ⟨_ | k, fs⟩ <;> rcases hb : s.bfr.pending with _ | ⟨b, r⟩ <;>
    simp [Socks5.Ask, Socks5.connWrite, NetConn.Write, Socks5.validReplyAsk, Reader.ReadByte, hf, hb,
      Version]

theorem Ask_snd (s : Socks5) (h : s.Ask.1 = true) :
    s.Ask.2.bfr.pending = s.bfr.pending.drop 2 ∧ s.Ask.2.conn.faults = s.conn.faults.drop 1 := by
  revert h
  rcases hf : s.conn.faults with _ | ⟨_ | k, fs⟩ <;>
    rcases hb : s.bfr.pending with _ | ⟨b, _ | ⟨b2, r⟩⟩ <;>
    simp [Socks5.Ask, Socks5.connWrite, NetConn.Write, Socks5.validReplyAsk, Reader.ReadByte, hf, hb,
      Version]

theorem Ask_log (s : Socks5) :
    s.Ask.2.log = s.log ++ [Event.write [5, 1, 0] (s.conn.Write [5, 1, 0]).1
      (s.conn.Write [5, 1, 0]).2.1] := by
  simp only [Socks5.Ask, Socks5.connWrite, Socks5.validReplyAsk, Version]
  split_ifs <;> rfl

theorem Conn_fst (s : Socks5) (cmd : Nat) :
    (s.Conn cmd).1 = true ↔
      s.conn.faults.getD 0 none = none ∧ ∃ rest, s.bfr.pending = 5 :: 0 :: rest := by
  rcases hf : s.conn.faults with _ | ⟨_ | k, fs⟩ <;>
    rcases hb : s.bfr.pending with _ | ⟨b, _ | ⟨b2, r⟩⟩
  all_goals first
    | (by_cases h5 : b = 5 <;> by_cases h0 : b2 = 0 <;>
        simp [Socks5.Conn, Socks5.connWrite, NetConn.Write, Socks5.validReplyConn, Socks5.Valid,
          Reader.ReadByte, Reader.Read, hf, hb, Version, REP_0, h5, h0])
    | (by_cases h5 : b = 5 <;>
        simp [Socks5.Conn, Socks5.connWrite, NetConn.Write, Socks5.validReplyConn, Socks5.Valid,
          Reader.ReadByte, Reader.Read, hf, hb, Version, REP_0, h5])
    | simp [Socks5.Conn, Socks5.connWrite, NetConn.Write, Socks5.validReplyConn, Socks5.Valid,
          Reader.ReadByte, Reader.Read, hf, hb, Version, REP_0]

theorem handshakeOk_iff (s : Socks5) :
    (s.Ask.1 = true ∧ (s.Ask.2.Conn CMD_CONNECT).1 = true) ↔
      (s.conn.faults.getD 0 none = none ∧ s.conn.faults.getD 1 none = none
        ∧ ∃ m rest, s.bfr.pending = 5 :: m :: 5 :: 0 :: rest) := by
  constructor
  · rintro ⟨ha, hc⟩
    obtain ⟨hb, hf⟩ := Ask_snd s ha
    rw [Conn_fst, hb, hf] at hc
    rw [Ask_fst] at ha
    obtain ⟨hf0, hh⟩ := ha
    obtain ⟨hf1, rest, hr⟩ := hc
    refine ⟨hf0, ?_, ?_⟩
    · rcases hfs : s.conn.faults with _ | ⟨f, fs⟩ <;> simp_all
    · rcases hbs : s.bfr.pending with _ | ⟨b, _ | ⟨b2, r⟩⟩ <;> simp_all
  · rintro ⟨hf0, hf1, m, rest, hb⟩
    have ha : s.Ask.1 = true := by
      rw [Ask_fst]
      exact ⟨hf0, by rw [hb]; rfl⟩
    refine ⟨ha, ?_⟩
    obtain ⟨hb2, hf⟩ := Ask_snd s ha
    rw [Conn_fst, hb2, hf, hb]
    refine ⟨?_, rest, rfl⟩
    rcases hfs : s.conn.faults with _ | ⟨f, fs⟩ <;> simp_all

theorem handshake_ok (s : Socks5) (h : s.Ask.1 = true ∧ (s.Ask.2.Conn CMD_CONNECT).1 = true) :
    handshake s = (none, some ((s.Ask.2.Conn CMD_CONNECT).2.emit Event.connected)) := by
  simp [handshake, h.1, h.2]

theorem handshake_fail (s : Socks5)
    (h : ¬ (s.Ask.1 = true ∧ (s.Ask.2.Conn CMD_CONNECT).1 = true)) :
    (handshake s).1 = some Err.HandlesErr
      ∧ ((handshake s).2 = some s.Ask.2 ∨ (handshake s).2 = some (s.Ask.2.Conn CMD_CONNECT).2) := by
  unfold handshake
  by_cases ha : s.Ask.1 = true
  · have hc : ¬ (s.Ask.2.Conn CMD_CONNECT).1 = true := fun hc => h ⟨ha, hc⟩
    simp [ha, hc]
  · simp [ha]

/-! ## C8: the client accepts only a Succeeded reply -/

/-- C8: on an established connection `c` to the proxy, Dial returns nil and calls
Connected exactly once if and only if both writes (greeting and request) are accepted in
full and the proxy's stream is 5, a method byte, then 5, 0 (method-selection reply with
version 5, connect reply with version 5 and REP 0); in every other case, as for a
connect reply with version 4 or a REP other than 0, it returns HandlesErr and never
calls Connected. -/
theorem C8_client_accepts_only_succeeded (network : List Nat)
    (netDial : List Nat → Option NetConn) (ParseIP : List Nat → Option (List Nat))
    (c : NetConn) (hc : netDial network = some c) :
    ∃ s, (Dial network netDial ParseIP).2 = some s
      ∧ (((Dial network netDial ParseIP).1 = none ∧ s.log.count Event.connected = 1)
          ↔ handshakeOk c)
      ∧ (¬ handshakeOk c →
          (Dial network netDial ParseIP).1 = some Err.HandlesErr ∧ Event.connected ∉ s.log) := by
  obtain ⟨hconn, hbfr, hlog⟩ := dialSession_frame c ParseIP
  have hiff := handshakeOk_iff (dialSession c ParseIP)
  rw [hconn, hbfr] at hiff
  rw [Dial_eq, hc]
  simp only [handshakeOk]
  by_cases hok : (dialSession c ParseIP).Ask.1 = true
      ∧ ((dialSession c ParseIP).Ask.2.Conn CMD_CONNECT).1 = true
  · refine ⟨_, by rw [handshake_ok _ hok], ?_, ?_⟩
    · rw [handshake_ok _ hok]
      simp only [true_and]
      refine ⟨fun _ => hiff.1 hok, fun _ => ?_⟩
      simp [Socks5.emit, Conn_log, Ask_log, hlog]
    · intro hn
      exact absurd (hiff.1 hok) hn
  · obtain ⟨herr, h2 | h2⟩ := handshake_fail _ hok
    · refine ⟨_, h2, ?_, ?_⟩
      · rw [herr]
        simp only [false_and, false_iff, reduceCtorEq]
        exact fun h => hok (hiff.2 h)
      · intro _
        exact ⟨herr, by simp [Ask_log, hlog]⟩
    · refine ⟨_, h2, ?_, ?_⟩
      · rw [herr]
        simp only [false_and, false_iff, reduceCtorEq]
        exact fun h => hok (hiff.2 h)
      · intro _
        exact ⟨herr, by simp [Conn_log, Ask_log, hlog]⟩

/-- Witness of C8: a proxy answering [5, 0] and then [5, 0, 0, 1, 0, 0, 0, 0, 0, 0]. -/
theorem C8_client_accepts_only_succeeded_witness :
    (fun _ => some (NetConn.ofBytes [5, 0, 5, 0, 0, 1, 0, 0, 0, 0, 0, 0]) :
        List Nat → Option NetConn) (ascii "localhost:1080")
      = some (NetConn.ofBytes [5, 0, 5, 0, 0, 1, 0, 0, 0, 0, 0, 0])
    ∧ ∃ s, (Dial (ascii "localhost:1080")
          (fun _ => some (NetConn.ofBytes [5, 0, 5, 0, 0, 1, 0, 0, 0, 0, 0, 0]))
          (fun _ => none)).2 = some s
      ∧ (((Dial (ascii "localhost:1080")
            (fun _ => some (NetConn.ofBytes [5, 0, 5, 0, 0, 1, 0, 0, 0, 0, 0, 0]))
            (fun _ => none)).1 = none ∧ s.log.count Event.connected = 1)
          ↔ handshakeOk (NetConn.ofBytes [5, 0, 5, 0, 0, 1, 0, 0, 0, 0, 0, 0]))
      ∧ (¬ handshakeOk (NetConn.ofBytes [5, 0, 5, 0, 0, 1, 0, 0, 0, 0, 0, 0]) →
          (Dial (ascii "localhost:1080")
            (fun _ => some (NetConn.ofBytes [5, 0, 5, 0, 0, 1, 0, 0, 0, 0, 0, 0]))
            (fun _ => none)).1 = some Err.HandlesErr ∧ Event.connected ∉ s.log) :=
  ⟨rfl, C8_client_accepts_only_succeeded (ascii "localhost:1080")
    (fun _ => some (NetConn.ofBytes [5, 0, 5, 0, 0, 1, 0, 0, 0, 0, 0, 0])) (fun _ => none)
    (NetConn.ofBytes [5, 0, 5, 0, 0, 1, 0, 0, 0, 0, 0, 0]) rfl⟩

/-! ## C9: dialing localhost -/

theorem dialSession_baidu (c : NetConn) (ParseIP : List Nat → Option (List Nat))
    (hP : ParseIP (ascii "baidu.com") = none) :
    dialSession c ParseIP =
      { conn := c, bfr := { pending := c.incoming, buffered := 0, reads := c.reads }, atyp := 3,
        addr := ascii "baidu.com", port := [1, 187], log := [] } := by
  have h0 : (Split (ascii "baidu.com:443") 58).getD 0 [] = ascii "baidu.com" := by decide
  have h1 : (Split (ascii "baidu.com:443") 58).getD 1 [] = ascii "443" := by decide
  have h2 : ¬ ToLower (ascii "baidu.com") = ascii "localhost" := by decide
  have h3 : PutUint16 (Atoi (ascii "443") % 65536) = [1, 187] := by decide
  unfold dialSession
  simp only [h0, h1, h2, h3, hP, if_false]
  rfl

/-- C9 (code defect): asked to dial "localhost:1080", with a proxy that accepts the
handshake, Dial writes the greeting [5, 1, 0] and then the request
[5, 1, 0, 3, 9, b, a, i, d, u, ., c, o, m, 1, 187], a 16-byte request for the domain
"baidu.com", port 443: line 79 of index.go overwrites the address to dial with
"baidu.com:443", so the request does not carry ATYP 1 and 127, 0, 0, 1. `ParseIP` is any
function that, as net.ParseIP does, returns nil for "baidu.com". -/
theorem C9_localhost_request_names_baidu (ParseIP : List Nat → Option (List Nat))
    (hP : ParseIP (ascii "baidu.com") = none) :
    (Dial (ascii "localhost:1080")
        (fun _ => some (NetConn.ofBytes [5, 0, 5, 0, 0, 1, 0, 0, 0, 0, 0, 0])) ParseIP).2.map
        Socks5.log
      = some [Event.write [5, 1, 0] 3 false,
          Event.write ([5, 1, 0, 3, 9] ++ ascii "baidu.com" ++ [1, 187]) 16 false,
          Event.connected] := by
  rw [Dial_eq]
  simp only [dialSession_baidu _ _ hP]
  decide

/-- Witness of C9: a `ParseIP` that returns nil. -/
theorem C9_localhost_request_names_baidu_witness :
    (fun _ => none : List Nat → Option (List Nat)) (ascii "baidu.com") = none
    ∧ (Dial (ascii "localhost:1080")
        (fun _ => some (NetConn.ofBytes [5, 0, 5, 0, 0, 1, 0, 0, 0, 0, 0, 0])) (fun _ => none)).2.map
        Socks5.log
      = some [Event.write [5, 1, 0] 3 false,
          Event.write ([5, 1, 0, 3, 9] ++ ascii "baidu.com" ++ [1, 187]) 16 false,
          Event.connected] :=
  ⟨rfl, C9_localhost_request_names_baidu (fun _ => none) rfl⟩

/-! ## C14: the client greeting -/

/-- C14: Ask makes exactly one write, of the three bytes [5, 1, 0]; it returns true if
and only if that write returned no error and the count 3 and the first byte of the
proxy's stream can be read and is 5; and after a successful write, when the two bytes of
the method-selection reply are there, it consumes exactly those two. -/
theorem C14_client_greeting (s : Socks5) :
    s.Ask.2.log = s.log ++ [Event.write [0x05, 0x01, 0x00] (s.conn.Write [5, 1, 0]).1
        (s.conn.Write [5, 1, 0]).2.1]
    ∧ (s.Ask.1 = true ↔
        ((s.conn.Write [5, 1, 0]).2.1 = false ∧ (s.conn.Write [5, 1, 0]).1 = 3
          ∧ s.bfr.pending.head? = some 0x05))
    ∧ (∀ a b rest, (s.conn.Write [5, 1, 0]).2.1 = false → s.bfr.pending = a :: b :: rest →
        s.Ask.2.bfr.pending = rest) := by
  refine ⟨Ask_log s, ?_, ?_⟩
  · rcases hf : s.conn.faults with _ | ⟨_ | k, fs⟩ <;> rcases hb : s.bfr.pending with _ | ⟨b, r⟩ <;>
      simp [Socks5.Ask, Socks5.connWrite, NetConn.Write, Socks5.validReplyAsk, Reader.ReadByte, hf, hb,
        Version]
  · intro a b rest
    rcases hf : s.conn.faults with _ | ⟨_ | k, fs⟩ <;>
      simp [Socks5.Ask, Socks5.connWrite, NetConn.Write, Socks5.validReplyAsk, Reader.ReadByte, hf,
        Version] <;>
      intro hb <;> simp [hb]

/-- Witness of C14: a proxy answering [5, 0] and then sending [9]. -/
theorem C14_client_greeting_witness :
    ((NewSocks5 (NetConn.ofBytes [5, 0, 9])).Ask.1 = true)
    ∧ (NewSocks5 (NetConn.ofBytes [5, 0, 9])).Ask.2.bfr.pending = [9]
    ∧ (NewSocks5 (NetConn.ofBytes [5, 0, 9])).Ask.2.log = [Event.write [5, 1, 0] 3 false] :=
  ⟨(C14_client_greeting (NewSocks5 (NetConn.ofBytes [5, 0, 9]))).2.1.2 (by decide),
    (C14_client_greeting (NewSocks5 (NetConn.ofBytes [5, 0, 9]))).2.2 5 0 [9] (by decide) rfl,
    (C14_client_greeting (NewSocks5 (NetConn.ofBytes [5, 0, 9]))).1⟩

/-! ## C12: a domain name of more than 255 bytes -/

set_option maxRecDepth 8192 in
/-- C12 (code defect): for a session with ATYP 3 whose address is 256 bytes long (256
times the letter a) and port 80, on a connection whose proxy answers [5, 0, ...], Conn
writes the 263 bytes [5, 1, 0, 3, 0], the 256 name bytes and [0, 80], and returns true:
nothing checks the length, and the length byte is 256 mod 256 = 0, not the number of
name bytes that follow it. -/
theorem C12_long_domain_is_written :
    longDomainSession.atyp = ATYP_DOMAINNAME ∧ longDomainSession.addr.length = 256
    ∧ (longDomainSession.Conn CMD_CONNECT).1 = true
    ∧ (longDomainSession.Conn CMD_CONNECT).2.log
      = [Event.write ([5, 1, 0, 3, 0] ++ List.replicate 256 97 ++ [0, 80]) 263 false] := by
  decide

/-! ## C18: what the client reads of the connect reply -/

/-- C18 (code defect): on the proxy's stream made of the reply ReplyConn(REP_0) builds for
the IPv4 endpoint 127.0.0.1:80, namely [5, 0, 0, 1, 127, 0, 0, 1, 0, 80], followed by the
target's first bytes "hi", validReplyConn returns true having read only the bytes VER and
REP: the next bytes of the stream are the eight left-over bytes of the reply, and Dial
calls Connected in that state. -/
theorem C18_reply_is_left_unread :
    ({ conn := NetConn.ofBytes [], bfr := Reader.ofBytes [], atyp := 1, addr := [127, 0, 0, 1],
        port := [0, 80], log := [] } : Socks5).reply REP_0 = [5, 0, 0, 1, 127, 0, 0, 1, 0, 80]
    ∧ (NewSocks5 (NetConn.ofBytes
          ([5, 0, 0, 1, 127, 0, 0, 1, 0, 80] ++ ascii "hi"))).validReplyConn.1 = true
    ∧ (NewSocks5 (NetConn.ofBytes
          ([5, 0, 0, 1, 127, 0, 0, 1, 0, 80] ++ ascii "hi"))).validReplyConn.2.bfr.pending
        = [0, 1, 127, 0, 0, 1, 0, 80] ++ ascii "hi"
    ∧ (Dial (ascii "localhost:1080")
          (fun _ => some (NetConn.ofBytes ([5, 0] ++ [5, 0, 0, 1, 127, 0, 0, 1, 0, 80] ++ ascii "hi")))
          (fun _ => none)).2.map (fun s => (s.bfr.pending, s.log.getLast?))
        = some ([0, 1, 127, 0, 0, 1, 0, 80] ++ ascii "hi", some Event.connected) := by
  decide

/-! ## C15: the port -/

/-- C15 (code defect): asked to dial "localhost:1080", Dial serialises the port 443, the
bytes [1, 187], and not the port 1080, the bytes [4, 56]: the port text it converts is
that of the constant of line 79. And when the request body [1, 127, 0, 0, 1, 0, 80], with
port 80, is delivered in two reads, [1, 127, 0] and [0, 1, 0, 80], the decimal number
after the last ':' of the string GetAddr returns is 1: the short read of the address
leaves the byte 1 where the port is read. -/
theorem C15_port_is_not_the_requested_one :
    (Dial (ascii "localhost:1080")
        (fun _ => some (NetConn.ofBytes [5, 0, 5, 0, 0, 1, 0, 0, 0, 0, 0, 0]))
        (fun _ => none)).2.map (fun s => s.port) = some [1, 187]
    ∧ PutUint16 (1080 % 65536) = [4, 56]
    ∧ (NewSocks5 (NetConn.ofReads [1, 127, 0, 0, 1, 0, 80] [3])).GetAddr.1
        = some ([127, 0, 0, 0] ++ ascii ":1")
    ∧ Atoi (afterLast 58 ([127, 0, 0, 0] ++ ascii ":1")) = 1
    ∧ Uint16 [0, 80] = 80 := by
  decide

end EasySocks5
